import Mathlib

/-!
Verification development for the Pong0 challenge-acquisition and query
pipeline (`src/cookieGetter.js`, `src/utils/parser.js`, `src/utils/fetcher.js`).

The JavaScript sources are shallowly embedded: strings are Lean `String`s,
JS objects become structures, the cheerio DOM selections become explicit
lists of selection results, network and filesystem effects become explicit
parameters, and the event-driven sandbox of `getCookies` becomes a small-step
machine over an explicit event trace.
-/

namespace Pong0

/-! ## JS string primitives

Models of the JavaScript string operations the sources use.  JS truthiness
of a string is nonemptiness. -/

/-- The single-quote character. -/
def squote : Char := Char.ofNat 39

/-- JS `\s` whitespace class (the common members). -/
def jsWs (c : Char) : Bool :=
  c = ' ' || c = '\t' || c = '\n' || c = '\r' || c = '\x0b' || c = '\x0c'

/-- Model of JS `String.prototype.trim`. -/
def jsTrim (s : String) : String :=
  String.mk (((s.data.dropWhile jsWs).reverse.dropWhile jsWs).reverse)

/-- Split a char list on a separator character, JS `split` semantics:
`"" .split(c) = [""]`. -/
def splitChar (sep : Char) : List Char → List (List Char)
  | [] => [[]]
  | c :: cs =>
    let r := splitChar sep cs
    if c = sep then [] :: r
    else
      match r with
      | [] => [[c]]
      | h :: t => (c :: h) :: t

/-- Model of JS `String.prototype.split` with a one-character separator. -/
def jsSplit (sep : Char) (s : String) : List String :=
  (splitChar sep s.data).map String.mk

/-- Boolean substring test on char lists (JS `String.prototype.includes`). -/
def containsSub (needle : String) : List Char → Bool
  | [] => needle.data.isPrefixOf []
  | c :: cs => needle.data.isPrefixOf (c :: cs) || containsSub needle cs

/-- Model of JS `hay.includes(needle)`. -/
def strContains (hay needle : String) : Bool :=
  containsSub needle hay.data

/-- Model of JS `String.prototype.startsWith`. -/
def jsStartsWith (s pre : String) : Bool :=
  pre.data.isPrefixOf s.data

/-- Remove the first occurrence of `needle` (JS `s.replace(needle, "")`
with a string pattern replaces only the first occurrence). -/
def removeFirstAux (needle : List Char) : List Char → List Char
  | [] => []
  | c :: cs =>
    if needle.isPrefixOf (c :: cs) then (c :: cs).drop needle.length
    else c :: removeFirstAux needle cs

/-- Model of JS `s.replace(needle, "")`. -/
def removeFirst (s needle : String) : String :=
  String.mk (removeFirstAux needle.data s.data)

/-- Model of JS `Array.prototype.join`. -/
def joinWith (sep : String) : List String → String
  | [] => ""
  | [x] => x
  | x :: y :: t => x ++ sep ++ joinWith sep (y :: t)

/-! ## Association-list cookie / variable store -/

/-- Lookup in an association list of string keys (JS object property read). -/
def lookupAssoc : List (String × String) → String → Option String
  | [], _ => none
  | p :: rest, q => if p.1 = q then some p.2 else lookupAssoc rest q

/-- Update an association list (JS object property write). -/
def setAssoc : List (String × String) → String → String → List (String × String)
  | [], k, v => [(k, v)]
  | p :: rest, k, v => if p.1 = k then (k, v) :: rest else p :: setAssoc rest k v

/-! ## The `document.cookie` setter of `cookieGetter.js`

Source (`src/cookieGetter.js` lines 219-227): split the cookie string on
`";"`, take the first pair, split it on `"="`, and require both key and
value to be truthy before storing the trimmed pair. -/

/-- The parsing done by the intercepted `document.cookie` setter. -/
def parseCookiePair (cookieString : String) : Option (String × String) :=
  let pair := (jsSplit ';' cookieString).headD ""
  if pair = "" then none
  else
    let parts := jsSplit '=' pair
    let key := parts.headD ""
    match parts[1]? with
    | none => none
    | some value =>
      if key ≠ "" ∧ value ≠ "" then some (jsTrim key, jsTrim value) else none

/-- The credential object `{js1key, pow}` that `getCookies` resolves with. -/
structure Cred where
  js1key : Option String
  pow : Option String
deriving DecidableEq, Repr

/-- Events that can reach the sandbox of `getCookies`: a write to
`document.cookie` by the challenge script, and the two timer callbacks. -/
inductive SbEvent where
  | write (s : String)
  | primaryTimeout
  | backupTimeout
deriving DecidableEq, Repr

/-- The sandbox state: the cookie store, the mutable `result` object, the
promise (settled flag, settlement time, attempt counter) and the
`clearTimeout` / fired-once state of the two timers.  The promise is
fulfilled with the `result` OBJECT itself, so no copy of its fields is
taken at resolution time: the settled state only records that and when
resolution happened. -/
structure SbState where
  cookies : List (String × String)
  resultJs1key : Option String
  resultPow : Option String
  settled : Bool
  settledAt : Option Nat
  resolveAttempts : Nat
  timeoutCleared : Bool
  backupCleared : Bool
  timeoutFired : Bool
  backupFired : Bool
deriving DecidableEq, Repr

/-- Initial sandbox state (`const cookies = {}`, `result` both null,
no timer cleared or fired). -/
def initSb : SbState :=
  ⟨[], none, none, false, none, 0, false, false, false, false⟩

/-- A call to `resolve(result)`: a promise settles exactly once, so only
the first call fulfils it; later calls are counted but neither re-settle
the promise nor change the settlement time.  The promise is fulfilled with
the mutable `result` object, not with a copy of its fields, so the value
the awaiting caller eventually observes is read from the object when the
continuation runs (see `sbOutcome`). -/
def doResolve (t : Nat) (s : SbState) : SbState :=
  if s.settled then { s with resolveAttempts := s.resolveAttempts + 1 }
  else { s with resolveAttempts := s.resolveAttempts + 1,
                settled := true, settledAt := some t }

/-- What the awaiting caller of `getCookies` observes after the run's
events have been processed: the promise was fulfilled with the `result`
object, so the credential fields are read from that object in its final
state — including any mutation performed after resolution. -/
def sbOutcome (s : SbState) : Option Cred :=
  if s.settled then some ⟨s.resultJs1key, s.resultPow⟩ else none

/-- The `document.cookie` setter (`src/cookieGetter.js` lines 219-279):
store the parsed pair; when both `js1key` and `pow` are present and truthy,
copy them into `result`, clear both timers and resolve.  The setter runs in
full on every write, also after the promise has settled. -/
def applyCookieWrite (t : Nat) (str : String) (s : SbState) : SbState :=
  match parseCookiePair str with
  | none => s
  | some kv =>
    let cs := setAssoc s.cookies kv.1 kv.2
    let jk := (lookupAssoc cs "js1key").getD ""
    let pw := (lookupAssoc cs "pow").getD ""
    if jk ≠ "" ∧ pw ≠ "" then
      doResolve t { s with cookies := cs,
                           resultJs1key := some jk, resultPow := some pw,
                           backupCleared := true, timeoutCleared := true }
    else { s with cookies := cs }

/-- One sandbox step.  The primary timeout (lines 306-321) resolves without
clearing the backup timer; the backup timeout (lines 324-338) clears the
primary timer and resolves.  A cleared or already-fired timer callback never
runs. -/
def sbStep (s : SbState) (t : Nat) (e : SbEvent) : SbState :=
  match e with
  | SbEvent.write str => applyCookieWrite t str s
  | SbEvent.primaryTimeout =>
    if s.timeoutCleared || s.timeoutFired then s
    else doResolve t { s with timeoutFired := true }
  | SbEvent.backupTimeout =>
    if s.backupCleared || s.backupFired then s
    else doResolve t { s with backupFired := true, timeoutCleared := true }

/-- Run the sandbox from a given state over a timed event trace. -/
def sbRunFrom (s : SbState) (evs : List (Nat × SbEvent)) : SbState :=
  evs.foldl (fun a te => sbStep a te.1 te.2) s

/-- Run the sandbox from the initial state. -/
def sbRun (evs : List (Nat × SbEvent)) : SbState :=
  sbRunFrom initSb evs

/-- Timer events carry the times they were armed with: 15000 ms for the
primary timeout and 20000 ms for the backup. -/
def TimersOk (evs : List (Nat × SbEvent)) : Prop :=
  ∀ te ∈ evs, (te.2 = SbEvent.primaryTimeout → te.1 = 15000) ∧
              (te.2 = SbEvent.backupTimeout → te.1 = 20000)

/-- The trace is chronological. -/
def chronOk : List (Nat × SbEvent) → Bool
  | [] => true
  | [_] => true
  | a :: b :: rest => decide (a.1 ≤ b.1) && chronOk (b :: rest)

/-- The trace is chronological (as a proposition). -/
def ChronOk (evs : List (Nat × SbEvent)) : Prop :=
  chronOk evs = true

/-- The backup timer callback is eventually delivered (it is what guarantees
resolution). -/
def hasBackup (evs : List (Nat × SbEvent)) : Bool :=
  evs.any (fun te => decide (te.2 = SbEvent.backupTimeout))

/-- A complete, realizable trace of one `getCookies` run. -/
def WellFormedTrace (evs : List (Nat × SbEvent)) : Prop :=
  ChronOk evs ∧ TimersOk evs ∧ hasBackup evs = true

/-- No write ever stores one of the two required credential names
(`js1key`, `pow`). -/
def NoCredWrite (evs : List (Nat × SbEvent)) : Prop :=
  ∀ te ∈ evs, ∀ str k v, te.2 = SbEvent.write str →
    parseCookiePair str = some (k, v) → k ≠ "js1key" ∧ k ≠ "pow"

/-- Model of `getCookies` (`src/cookieGetter.js` lines 18-357).  Inputs:
the injected globals and verbosity flag (which do not influence the
credential outcome), the result of reading `raw.js`, and the event trace of
the sandbox run.  If the file read fails, the function resolves immediately
with both fields null; otherwise the caller observes the final fields of
the `result` object the promise was fulfilled with (`none` would mean the
promise never resolved). -/
def getCookies (x1 difficulty : String) (isVerbose : Bool)
    (fileRead : Option String) (evs : List (Nat × SbEvent)) : Option Cred :=
  match fileRead with
  | none => some ⟨none, none⟩
  | some _ => sbOutcome (sbRun evs)

/-! ## Sandbox invariants -/

/-- The `result` object's fields are populated together (and truthy), or
both null. -/
def ShapeInv (s : SbState) : Prop :=
  (s.resultJs1key = none ∧ s.resultPow = none) ∨
    ∃ k p, k ≠ "" ∧ p ≠ "" ∧ s.resultJs1key = some k ∧ s.resultPow = some p

/-- The backup timer is only disarmed or consumed after the promise settles. -/
def GoodFlags (s : SbState) : Prop :=
  (s.backupFired = true → s.settled = true) ∧
  (s.backupCleared = true → s.settled = true)

/-- Invariant when no required credential name is ever written: the two
required cookies stay absent, `result` stays null, and any settlement time
is a timer time. -/
def NCInv (s : SbState) : Prop :=
  lookupAssoc s.cookies "js1key" = none ∧ lookupAssoc s.cookies "pow" = none ∧
  s.resultJs1key = none ∧ s.resultPow = none ∧
  (∀ t2, s.settledAt = some t2 → t2 = 15000 ∨ t2 = 20000) ∧
  s.settled = s.settledAt.isSome

lemma getD_ne_empty {o : Option String} (h : o.getD "" ≠ "") :
    o = some (o.getD "") := by
  cases o with
  | none => simp at h
  | some v => rfl

lemma bfalse {b : Bool} (h : b = false) : ¬(b = true) := by
  rw [h]
  exact Bool.false_ne_true

lemma doResolve_settled (t : Nat) (s : SbState) :
    (doResolve t s).settled = true := by
  unfold doResolve
  split
  · rename_i h
    exact h
  · rfl

lemma doResolve_resultJs1key (t : Nat) (s : SbState) :
    (doResolve t s).resultJs1key = s.resultJs1key := by
  unfold doResolve
  split <;> rfl

lemma doResolve_resultPow (t : Nat) (s : SbState) :
    (doResolve t s).resultPow = s.resultPow := by
  unfold doResolve
  split <;> rfl

lemma doResolve_cookies (t : Nat) (s : SbState) :
    (doResolve t s).cookies = s.cookies := by
  unfold doResolve
  split <;> rfl

lemma doResolve_settledAt_of_true {s : SbState} (t : Nat)
    (h : s.settled = true) : (doResolve t s).settledAt = s.settledAt := by
  unfold doResolve
  rw [if_pos h]

lemma doResolve_outcome_of_true {s : SbState} (t : Nat)
    (h : s.settled = true) : sbOutcome (doResolve t s) = sbOutcome s := by
  unfold doResolve
  rw [if_pos h]
  rfl

lemma sbStep_settled_mono (s : SbState) (t : Nat) (e : SbEvent)
    (h : s.settled = true) : (sbStep s t e).settled = true := by
  cases e with
  | write str =>
    show (applyCookieWrite t str s).settled = true
    unfold applyCookieWrite
    split
    · exact h
    · dsimp only
      split
      · exact doResolve_settled t _
      · exact h
  | primaryTimeout =>
    show (if s.timeoutCleared || s.timeoutFired then s
          else doResolve t { s with timeoutFired := true }).settled = true
    split
    · exact h
    · exact doResolve_settled t _
  | backupTimeout =>
    show (if s.backupCleared || s.backupFired then s
          else doResolve t { s with backupFired := true,
                                    timeoutCleared := true }).settled = true
    split
    · exact h
    · exact doResolve_settled t _

lemma sbStep_settledAt_mono (s : SbState) (t : Nat) (e : SbEvent)
    (h : s.settled = true) : (sbStep s t e).settledAt = s.settledAt := by
  cases e with
  | write str =>
    show (applyCookieWrite t str s).settledAt = s.settledAt
    unfold applyCookieWrite
    split
    · rfl
    · dsimp only
      split
      · exact doResolve_settledAt_of_true t h
      · rfl
  | primaryTimeout =>
    show (if s.timeoutCleared || s.timeoutFired then s
          else doResolve t { s with timeoutFired := true }).settledAt
        = s.settledAt
    split
    · rfl
    · exact doResolve_settledAt_of_true t h
  | backupTimeout =>
    show (if s.backupCleared || s.backupFired then s
          else doResolve t { s with backupFired := true,
                                    timeoutCleared := true }).settledAt
        = s.settledAt
    split
    · rfl
    · exact doResolve_settledAt_of_true t h

lemma sbRunFrom_settled_mono (evs : List (Nat × SbEvent)) (s : SbState)
    (h : s.settled = true) : (sbRunFrom s evs).settled = true := by
  induction evs generalizing s with
  | nil => exact h
  | cons te rest ih => exact ih _ (sbStep_settled_mono s te.1 te.2 h)

lemma sbRunFrom_settledAt_mono (evs : List (Nat × SbEvent)) (s : SbState)
    (h : s.settled = true) : (sbRunFrom s evs).settledAt = s.settledAt := by
  induction evs generalizing s with
  | nil => rfl
  | cons te rest ih =>
    have hstep := sbStep_settledAt_mono s te.1 te.2 h
    have htail := ih _ (sbStep_settled_mono s te.1 te.2 h)
    exact htail.trans hstep

lemma sbStep_good (s : SbState) (t : Nat) (e : SbEvent) (h : GoodFlags s) :
    GoodFlags (sbStep s t e) := by
  cases e with
  | write str =>
    show GoodFlags (applyCookieWrite t str s)
    unfold applyCookieWrite
    split
    · exact h
    · dsimp only
      split
      · constructor <;> intro _ <;> exact doResolve_settled t _
      · exact h
  | primaryTimeout =>
    show GoodFlags (if s.timeoutCleared || s.timeoutFired then s
          else doResolve t { s with timeoutFired := true })
    split
    · exact h
    · constructor <;> intro _ <;> exact doResolve_settled t _
  | backupTimeout =>
    show GoodFlags (if s.backupCleared || s.backupFired then s
          else doResolve t { s with backupFired := true,
                                    timeoutCleared := true })
    split
    · exact h
    · constructor <;> intro _ <;> exact doResolve_settled t _

lemma sbRunFrom_settles (evs : List (Nat × SbEvent)) (s : SbState)
    (hg : GoodFlags s) (hb : hasBackup evs = true) :
    (sbRunFrom s evs).settled = true := by
  induction evs generalizing s with
  | nil => simp [hasBackup] at hb
  | cons te rest ih =>
    by_cases he : te.2 = SbEvent.backupTimeout
    · have hstep : (sbStep s te.1 te.2).settled = true := by
        rw [he]
        show (if s.backupCleared || s.backupFired then s
              else doResolve te.1 { s with backupFired := true,
                                           timeoutCleared := true }).settled = true
        split
        · rename_i hflag
          rcases (Bool.or_eq_true _ _).mp hflag with h | h
          · exact hg.2 h
          · exact hg.1 h
        · exact doResolve_settled te.1 _
      exact sbRunFrom_settled_mono rest _ hstep
    · have hb2 : hasBackup rest = true := by
        unfold hasBackup at hb ⊢
        simp only [List.any_cons, Bool.or_eq_true, decide_eq_true_eq] at hb
        rcases hb with h | h
        · exact absurd h he
        · exact h
      exact ih _ (sbStep_good s te.1 te.2 hg) hb2

lemma doResolve_shape {s : SbState} (t : Nat) (h : ShapeInv s) :
    ShapeInv (doResolve t s) := by
  unfold ShapeInv at h ⊢
  rw [doResolve_resultJs1key, doResolve_resultPow]
  exact h

lemma sbStep_shape (s : SbState) (t : Nat) (e : SbEvent) (h : ShapeInv s) :
    ShapeInv (sbStep s t e) := by
  cases e with
  | write str =>
    show ShapeInv (applyCookieWrite t str s)
    unfold applyCookieWrite
    split
    · exact h
    · dsimp only
      split
      · rename_i hcond
        refine doResolve_shape t ?_
        exact Or.inr ⟨_, _, hcond.1, hcond.2, rfl, rfl⟩
      · exact h
  | primaryTimeout =>
    show ShapeInv (if s.timeoutCleared || s.timeoutFired then s
          else doResolve t { s with timeoutFired := true })
    split
    · exact h
    · exact doResolve_shape t h
  | backupTimeout =>
    show ShapeInv (if s.backupCleared || s.backupFired then s
          else doResolve t { s with backupFired := true,
                                    timeoutCleared := true })
    split
    · exact h
    · exact doResolve_shape t h

lemma sbRunFrom_shape (evs : List (Nat × SbEvent)) (s : SbState)
    (h : ShapeInv s) : ShapeInv (sbRunFrom s evs) := by
  induction evs generalizing s with
  | nil => exact h
  | cons te rest ih => exact ih _ (sbStep_shape s te.1 te.2 h)

lemma lookupAssoc_setAssoc_ne (cs : List (String × String)) (k v q : String)
    (h : k ≠ q) : lookupAssoc (setAssoc cs k v) q = lookupAssoc cs q := by
  induction cs with
  | nil => simp [setAssoc, lookupAssoc, h]
  | cons p rest ih =>
    by_cases hp : p.1 = k
    · simp only [setAssoc, lookupAssoc, if_pos hp]
      rw [if_neg h, if_neg (hp ▸ h)]
    · simp only [setAssoc, lookupAssoc, if_neg hp]
      by_cases hq : p.1 = q
      · rw [if_pos hq, if_pos hq]
      · rw [if_neg hq, if_neg hq]
        exact ih

lemma doResolve_nc {s : SbState} (t : Nat) (ht : t = 15000 ∨ t = 20000)
    (h : NCInv s) : NCInv (doResolve t s) := by
  obtain ⟨h1, h2, h3, h4, h5, h6⟩ := h
  unfold doResolve
  split
  · exact ⟨h1, h2, h3, h4, h5, h6⟩
  · refine ⟨h1, h2, h3, h4, ?_, rfl⟩
    intro t2 ht2
    have ht3 : some t = some t2 := ht2
    simp only [Option.some.injEq] at ht3
    exact ht3 ▸ ht

lemma sbStep_nc (s : SbState) (t : Nat) (e : SbEvent) (h : NCInv s)
    (hw : ∀ str k v, e = SbEvent.write str →
        parseCookiePair str = some (k, v) → k ≠ "js1key" ∧ k ≠ "pow")
    (hpt : e = SbEvent.primaryTimeout → t = 15000)
    (hbt : e = SbEvent.backupTimeout → t = 20000) :
    NCInv (sbStep s t e) := by
  obtain ⟨h1, h2, h3, h4, h5, h6⟩ := h
  cases e with
  | write str =>
    show NCInv (applyCookieWrite t str s)
    unfold applyCookieWrite
    cases hp : parseCookiePair str with
    | none => exact ⟨h1, h2, h3, h4, h5, h6⟩
    | some kv =>
      have hk := hw str kv.1 kv.2 rfl (by rw [hp])
      have hl1 : lookupAssoc (setAssoc s.cookies kv.1 kv.2) "js1key" = none := by
        rw [lookupAssoc_setAssoc_ne _ _ _ _ hk.1]; exact h1
      have hl2 : lookupAssoc (setAssoc s.cookies kv.1 kv.2) "pow" = none := by
        rw [lookupAssoc_setAssoc_ne _ _ _ _ hk.2]; exact h2
      dsimp only
      rw [if_neg (by rw [hl1]; simp)]
      exact ⟨hl1, hl2, h3, h4, h5, h6⟩
  | primaryTimeout =>
    show NCInv (if s.timeoutCleared || s.timeoutFired then s
          else doResolve t { s with timeoutFired := true })
    split
    · exact ⟨h1, h2, h3, h4, h5, h6⟩
    · exact doResolve_nc t (Or.inl (hpt rfl)) ⟨h1, h2, h3, h4, h5, h6⟩
  | backupTimeout =>
    show NCInv (if s.backupCleared || s.backupFired then s
          else doResolve t { s with backupFired := true,
                                    timeoutCleared := true })
    split
    · exact ⟨h1, h2, h3, h4, h5, h6⟩
    · exact doResolve_nc t (Or.inr (hbt rfl)) ⟨h1, h2, h3, h4, h5, h6⟩

lemma sbRunFrom_nc (evs : List (Nat × SbEvent)) (s : SbState)
    (h : NCInv s) (hnc : NoCredWrite evs) (hto : TimersOk evs) :
    NCInv (sbRunFrom s evs) := by
  induction evs generalizing s with
  | nil => exact h
  | cons te rest ih =>
    have hstep : NCInv (sbStep s te.1 te.2) := by
      refine sbStep_nc s te.1 te.2 h ?_ ?_ ?_
      · intro str k v he hp
        exact hnc te (List.mem_cons_self te rest) str k v he hp
      · intro he
        exact (hto te (List.mem_cons_self te rest)).1 he
      · intro he
        exact (hto te (List.mem_cons_self te rest)).2 he
    refine ih _ hstep ?_ ?_
    · intro te2 hm str k v he hp
      exact hnc te2 (List.mem_cons_of_mem te hm) str k v he hp
    · intro te2 hm
      exact hto te2 (List.mem_cons_of_mem te hm)

lemma initSb_shape : ShapeInv initSb := Or.inl ⟨rfl, rfl⟩

lemma initSb_good : GoodFlags initSb := by
  constructor <;> intro h <;> simp [initSb] at h

lemma initSb_nc : NCInv initSb := by
  refine ⟨rfl, rfl, rfl, rfl, ?_, rfl⟩
  intro t2 ht2
  simp [initSb] at ht2

/-- C1: For every input (challenge nonce, difficulty, verbosity flag) and
every behaviour of the challenge script, `getCookies` never fails: on every
well-formed run it resolves with a credential object `{js1key, pow}` whose
fields are either both populated or both null, and on failure to read the
script file, or when no required credential is ever written (the timeout
case), it resolves with both credential fields null rather than raising an
error. -/
theorem getCookies_always_resolves (x1 difficulty : String) (isVerbose : Bool)
    (fileRead : Option String) (evs : List (Nat × SbEvent))
    (hwf : WellFormedTrace evs) :
    ∃ c, getCookies x1 difficulty isVerbose fileRead evs = some c ∧
      ((c.js1key = none ∧ c.pow = none) ∨
        ∃ k p, k ≠ "" ∧ p ≠ "" ∧ c.js1key = some k ∧ c.pow = some p) ∧
      (fileRead = none → c = ⟨none, none⟩) ∧
      (NoCredWrite evs → c = ⟨none, none⟩) := by
  cases fileRead with
  | none =>
    exact ⟨⟨none, none⟩, rfl, Or.inl ⟨rfl, rfl⟩, fun _ => rfl, fun _ => rfl⟩
  | some f =>
    have hset : (sbRun evs).settled = true :=
      sbRunFrom_settles evs initSb initSb_good hwf.2.2
    refine ⟨⟨(sbRun evs).resultJs1key, (sbRun evs).resultPow⟩, ?_, ?_, ?_, ?_⟩
    · show sbOutcome (sbRun evs) = _
      unfold sbOutcome
      rw [if_pos hset]
    · exact sbRunFrom_shape evs initSb initSb_shape
    · intro hno
      exact absurd hno (by simp)
    · intro hnc
      have hinv : NCInv (sbRun evs) :=
        sbRunFrom_nc evs initSb initSb_nc hnc hwf.2.1
      rw [hinv.2.2.1, hinv.2.2.2.1]

/-- C1 witness at a concrete input: the file read fails and the backup
timer fires; `getCookies` resolves with both fields null. -/
theorem getCookies_always_resolves_witness :
    ∃ c, getCookies "nonce" "5" false none [(20000, SbEvent.backupTimeout)] = some c ∧
      ((c.js1key = none ∧ c.pow = none) ∨
        ∃ k p, k ≠ "" ∧ p ≠ "" ∧ c.js1key = some k ∧ c.pow = some p) ∧
      ((none : Option String) = none → c = ⟨none, none⟩) ∧
      (NoCredWrite [(20000, SbEvent.backupTimeout)] → c = ⟨none, none⟩) :=
  getCookies_always_resolves "nonce" "5" false none [(20000, SbEvent.backupTimeout)]
    (by
      refine ⟨?_, ?_, ?_⟩
      · unfold ChronOk chronOk
        decide
      · intro te hte
        simp only [List.mem_singleton] at hte
        subst hte
        constructor
        · intro h
          cases h
        · intro _
          rfl
      · decide)

/-- C2 counterexample, in two parts.  First, after the primary timeout has
settled the promise at 15000 ms, the backup timer still fires and makes a
second resolve attempt (the source clears the backup timer only on the
cookie path).  Second, a qualifying credential write after resolution
mutates the `result` object the promise was fulfilled with: on the trace
that writes `js1key=a`, `pow=b` (settling the promise at time 2 with the
pair `(a, b)`) and then `pow=zzz`, the caller of `getCookies` observes
`pow = "zzz"`, so a write after resolution has an observable effect. -/
theorem sandbox_second_attempt_and_mutation_cex :
    WellFormedTrace [(15000, SbEvent.primaryTimeout), (20000, SbEvent.backupTimeout)] ∧
    (sbRun [(15000, SbEvent.primaryTimeout), (20000, SbEvent.backupTimeout)]).settledAt
      = some 15000 ∧
    (sbRun [(15000, SbEvent.primaryTimeout), (20000, SbEvent.backupTimeout)]).resolveAttempts
      = 2 ∧
    (sbRun [(1, SbEvent.write "js1key=a"), (2, SbEvent.write "pow=b")]).settledAt
      = some 2 ∧
    sbOutcome (sbRun [(1, SbEvent.write "js1key=a"), (2, SbEvent.write "pow=b")])
      = some ⟨some "a", some "b"⟩ ∧
    getCookies "nonce" "5" false (some "jscode")
        [(1, SbEvent.write "js1key=a"), (2, SbEvent.write "pow=b"),
         (3, SbEvent.write "pow=zzz"), (20000, SbEvent.backupTimeout)]
      = some ⟨some "a", some "zzz"⟩ := by
  refine ⟨⟨?_, ?_, ?_⟩, ?_, ?_, ?_, ?_, ?_⟩
  · unfold ChronOk chronOk
    decide
  · unfold TimersOk
    decide
  · decide
  · decide
  · decide
  · decide
  · decide
  · decide

/-- C2 (amended): the sandbox promise settles exactly once — once settled,
no later event re-settles it or changes the settlement time — and the
credential path settles it only when both required names have been observed
with truthy values, recording them in the result object; a later timer
firing leaves the observed credentials unchanged.  (By contrast, a later
qualifying credential write does change the observed credentials, and a
second trigger firing does attempt a resolve: see the counterexample.) -/
theorem sandbox_single_resolution :
    (∀ (s : SbState) (t : Nat) (e : SbEvent), s.settled = true →
        (sbStep s t e).settled = true ∧ (sbStep s t e).settledAt = s.settledAt) ∧
    (∀ (s : SbState) (t : Nat) (str : String),
        s.settled = false → (sbStep s t (SbEvent.write str)).settled = true →
        ∃ k p, k ≠ "" ∧ p ≠ "" ∧
          lookupAssoc (sbStep s t (SbEvent.write str)).cookies "js1key" = some k ∧
          lookupAssoc (sbStep s t (SbEvent.write str)).cookies "pow" = some p ∧
          (sbStep s t (SbEvent.write str)).resultJs1key = some k ∧
          (sbStep s t (SbEvent.write str)).resultPow = some p) ∧
    (∀ (s : SbState) (t : Nat), s.settled = true →
        sbOutcome (sbStep s t SbEvent.primaryTimeout) = sbOutcome s ∧
        sbOutcome (sbStep s t SbEvent.backupTimeout) = sbOutcome s) ∧
    (∀ (evs more : List (Nat × SbEvent)), (sbRun evs).settled = true →
        (sbRun (evs ++ more)).settled = true ∧
        (sbRun (evs ++ more)).settledAt = (sbRun evs).settledAt) := by
  refine ⟨?_, ?_, ?_, ?_⟩
  · intro s t e h
    exact ⟨sbStep_settled_mono s t e h, sbStep_settledAt_mono s t e h⟩
  · intro s t str hfalse hset
    have hw : sbStep s t (SbEvent.write str) = applyCookieWrite t str s := rfl
    rw [hw] at hset ⊢
    revert hset
    unfold applyCookieWrite
    cases hp : parseCookiePair str with
    | none =>
      intro hset
      have hset2 : s.settled = true := hset
      rw [hfalse] at hset2
      cases hset2
    | some kv =>
      dsimp only
      split
      · rename_i hcond
        intro _
        rw [doResolve_cookies, doResolve_resultJs1key, doResolve_resultPow]
        exact ⟨_, _, hcond.1, hcond.2, getD_ne_empty hcond.1,
          getD_ne_empty hcond.2, rfl, rfl⟩
      · intro hset
        have hset2 : s.settled = true := hset
        rw [hfalse] at hset2
        cases hset2
  · intro s t h
    constructor
    · show sbOutcome (if s.timeoutCleared || s.timeoutFired then s
          else doResolve t { s with timeoutFired := true }) = sbOutcome s
      split
      · rfl
      · exact doResolve_outcome_of_true t h
    · show sbOutcome (if s.backupCleared || s.backupFired then s
          else doResolve t { s with backupFired := true,
                                    timeoutCleared := true }) = sbOutcome s
      split
      · rfl
      · exact doResolve_outcome_of_true t h
  · intro evs more h
    constructor
    · unfold sbRun sbRunFrom at h ⊢
      rw [List.foldl_append]
      exact sbRunFrom_settled_mono more _ h
    · unfold sbRun sbRunFrom at h ⊢
      rw [List.foldl_append]
      exact sbRunFrom_settledAt_mono more _ h

/-- C2 witness: once two writes have settled the promise, a later backup
firing neither re-settles it, nor changes the settlement time, nor changes
the observed credentials. -/
theorem sandbox_single_resolution_witness :
    ((sbStep (sbRun [(1, SbEvent.write "js1key=a"), (2, SbEvent.write "pow=b")])
          20000 SbEvent.backupTimeout).settled = true ∧
      (sbStep (sbRun [(1, SbEvent.write "js1key=a"), (2, SbEvent.write "pow=b")])
          20000 SbEvent.backupTimeout).settledAt
        = (sbRun [(1, SbEvent.write "js1key=a"), (2, SbEvent.write "pow=b")]).settledAt) ∧
    sbOutcome (sbStep (sbRun [(1, SbEvent.write "js1key=a"), (2, SbEvent.write "pow=b")])
          20000 SbEvent.backupTimeout)
      = sbOutcome (sbRun [(1, SbEvent.write "js1key=a"), (2, SbEvent.write "pow=b")]) :=
  ⟨sandbox_single_resolution.1
      (sbRun [(1, SbEvent.write "js1key=a"), (2, SbEvent.write "pow=b")])
      20000 SbEvent.backupTimeout (by decide),
    (sandbox_single_resolution.2.2.1
      (sbRun [(1, SbEvent.write "js1key=a"), (2, SbEvent.write "pow=b")])
      20000 (by decide)).2⟩

/-- C4: If no required credential is ever written during sandbox execution,
acquisition resolves with both credential fields null, and the resolution
time is no earlier than the primary timeout (15000 ms) and no later than
the backup timeout (20000 ms). -/
theorem sandbox_timeout_bounds (x1 difficulty : String) (isVerbose : Bool)
    (fileContent : String) (evs : List (Nat × SbEvent))
    (hwf : WellFormedTrace evs) (hnc : NoCredWrite evs) :
    ∃ t, (sbRun evs).settledAt = some t ∧ 15000 ≤ t ∧ t ≤ 20000 ∧
      getCookies x1 difficulty isVerbose (some fileContent) evs
        = some ⟨none, none⟩ := by
  have hinv : NCInv (sbRun evs) := sbRunFrom_nc evs initSb initSb_nc hnc hwf.2.1
  have hset : (sbRun evs).settled = true :=
    sbRunFrom_settles evs initSb initSb_good hwf.2.2
  have hsomeAt : (sbRun evs).settledAt.isSome = true := by
    rw [← hinv.2.2.2.2.2]
    exact hset
  obtain ⟨t, ht⟩ := Option.isSome_iff_exists.mp hsomeAt
  have hrange := hinv.2.2.2.2.1 t ht
  refine ⟨t, ht, ?_, ?_, ?_⟩
  · rcases hrange with h | h <;> omega
  · rcases hrange with h | h <;> omega
  · show sbOutcome (sbRun evs) = some ⟨none, none⟩
    unfold sbOutcome
    rw [if_pos hset, hinv.2.2.1, hinv.2.2.2.1]

/-- C4 witness: with no writes at all, the primary timer resolves at
15000 ms and the credentials are both null. -/
theorem sandbox_timeout_bounds_witness :
    ∃ t, (sbRun [(15000, SbEvent.primaryTimeout), (20000, SbEvent.backupTimeout)]).settledAt
        = some t ∧ 15000 ≤ t ∧ t ≤ 20000 ∧
      getCookies "nonce" "5" false (some "jscode")
        [(15000, SbEvent.primaryTimeout), (20000, SbEvent.backupTimeout)]
        = some ⟨none, none⟩ :=
  sandbox_timeout_bounds "nonce" "5" false "jscode"
    [(15000, SbEvent.primaryTimeout), (20000, SbEvent.backupTimeout)]
    ⟨by unfold ChronOk chronOk; decide, by unfold TimersOk; decide, by decide⟩
    (by
      intro te hte str k v he hp
      simp only [List.mem_cons, List.not_mem_nil, or_false] at hte
      rcases hte with rfl | rfl
      · cases he
      · cases he)

/-! ## The challenge-parameter resolver (`fetchHomePage`, `src/utils/fetcher.js`)

The entry page is abstracted as the list of its `<script>` tags (inline
content and `src` attribute).  The regular expressions of the source are
embedded as explicit scanners. -/

/-- A `<script>` tag of the entry page. -/
structure ScriptTag where
  content : Option String
  src : Option String
deriving DecidableEq, Repr

/-- Is this character one of the two quote characters of the regex class
`['"]`? -/
def isQuote (c : Char) : Bool := c = squote || c = '"'

/-- Match a prefix, optionally case-insensitively (regex `i` flag). -/
def dropPrefixCI (ci : Bool) : List Char → List Char → Option (List Char)
  | [], rest => some rest
  | _ :: _, [] => none
  | a :: ps, b :: bs =>
    if (if ci then a.toLower = b.toLower else a = b) then dropPrefixCI ci ps bs
    else none

/-- Skip a run of `\s*`. -/
def skipWs : List Char → List Char
  | [] => []
  | c :: cs => if jsWs c then skipWs cs else c :: cs

/-- Try to match the pattern `varName\s*=\s*['"]([^'"]...)['"]` at the start
of `cs` and return the capture.  With `needTerm` the pattern additionally
requires a `(;|\s)` terminator after the closing quote and allows an empty
capture (regex `*`, as in `extractScriptVariables`); without it the capture
must be nonempty (regex `+`, as in `fetchHomePage`). -/
def matchAssignAt (ci needTerm : Bool) (varName : List Char) (cs : List Char) :
    Option String :=
  match dropPrefixCI ci varName cs with
  | none => none
  | some r1 =>
    match skipWs r1 with
    | [] => none
    | c :: r2 =>
      if c = '=' then
        match skipWs r2 with
        | [] => none
        | q :: r3 =>
          if isQuote q then
            let cap := r3.takeWhile (fun ch => !(isQuote ch))
            let rest := r3.dropWhile (fun ch => !(isQuote ch))
            match rest with
            | [] => none
            | _ :: r4 =>
              if needTerm then
                match r4 with
                | [] => none
                | tc :: _ =>
                  if tc = ';' || jsWs tc then some (String.mk cap) else none
              else
                if cap.isEmpty then none else some (String.mk cap)
          else none
      else none

/-- Leftmost match of the assignment pattern (JS `String.prototype.match`). -/
def findAssignAux (ci needTerm : Bool) (varName : List Char) :
    List Char → Option String
  | [] => none
  | c :: cs =>
    match matchAssignAt ci needTerm varName (c :: cs) with
    | some v => some v
    | none => findAssignAux ci needTerm varName cs

/-- Model of `content.match(new RegExp(varName + ..., flags))[1]`. -/
def findAssign (ci needTerm : Bool) (varName s : String) : Option String :=
  findAssignAux ci needTerm varName.data s.data

/-- The challenge parameters extracted from the entry page. -/
structure HomeParams where
  x1 : String
  difficulty : String
  scriptUrl : String
deriving DecidableEq, Repr

/-- The `x1` / `difficulty` extraction loop of `fetchHomePage`
(`src/utils/fetcher.js` lines 491-506): each script whose content contains
`window.x1` is scanned with the two case-sensitive regexes
`/window\.x1\s*=\s*['"]([^'"]+)['"]/` and
`/window\.difficulty\s*=\s*['"]([^'"]+)['"]/`; a successful nonempty capture
overwrites the previous value. -/
def extractHomeVars (scripts : List ScriptTag) : String × String :=
  scripts.foldl
    (fun acc tag =>
      match tag.content with
      | none => acc
      | some content =>
        if content ≠ "" ∧ strContains content "window.x1" then
          let a1 := match findAssign false false "window.x1" content with
                    | some v => v
                    | none => acc.1
          let a2 := match findAssign false false "window.difficulty" content with
                    | some v => v
                    | none => acc.2
          (a1, a2)
        else acc)
    ("", "")

/-- The external-script URL loop of `fetchHomePage` (lines 509-515): the
last script `src` containing `/static/js/` wins. -/
def extractScriptUrl (scripts : List ScriptTag) : String :=
  scripts.foldl
    (fun acc tag =>
      match tag.src with
      | none => acc
      | some src =>
        if src ≠ "" ∧ strContains src "/static/js/" then src else acc)
    ""

/-- Lines 517-519 of `src/utils/fetcher.js`: a script URL that does not
start with `http` gets the service root prefixed. -/
def resolveScriptUrl (s0 : String) : String :=
  if jsStartsWith s0 "http" then s0 else "https://ping0.cc" ++ s0

/-- Model of `fetchHomePage` (`src/utils/fetcher.js` lines 473-536): extract
`x1`, `difficulty` and the script URL, prefix a non-`http` URL with the
service root, and fail when a required parameter is missing. -/
def fetchHomePage (scripts : List ScriptTag) : Except String HomeParams :=
  let x1 := (extractHomeVars scripts).1
  let difficulty := (extractHomeVars scripts).2
  let scriptUrl := resolveScriptUrl (extractScriptUrl scripts)
  if x1 = "" ∨ difficulty = "" ∨ scriptUrl = "" then
    Except.error "无法从首页提取必要的参数"
  else Except.ok ⟨x1, difficulty, scriptUrl⟩

lemma string_data_nil (s : String) (h : s.data = []) : s = "" := by
  cases s with
  | mk l =>
    cases h
    rfl

lemma base_append_ne_empty (s : String) : "https://ping0.cc" ++ s ≠ "" := by
  intro h
  have hd : ("https://ping0.cc" ++ s).data = "".data := by rw [h]
  have hd2 : "https://ping0.cc".data ++ s.data = ([] : List Char) := hd
  have := congrArg List.length hd2
  simp at this

lemma resolvedScriptUrl_ne_empty (s0 : String) : resolveScriptUrl s0 ≠ "" := by
  unfold resolveScriptUrl
  split
  · rename_i h
    intro he
    subst he
    exact absurd h (by decide)
  · exact base_append_ne_empty s0

/-- C3 (amended): if the nonce or the difficulty cannot be located, the
resolver fails with the missing-parameters error, and every success has all
three fields non-empty; but a missing script reference does *not* cause a
failure — the script URL is the empty string prefixed with the service
root, i.e. `https://ping0.cc`. -/
theorem resolver_missing_params (scripts : List ScriptTag) :
    (∀ p, fetchHomePage scripts = Except.ok p →
        p.x1 ≠ "" ∧ p.difficulty ≠ "" ∧ p.scriptUrl ≠ "") ∧
    (fetchHomePage scripts = Except.error "无法从首页提取必要的参数" ↔
        (extractHomeVars scripts).1 = "" ∨ (extractHomeVars scripts).2 = "") ∧
    (extractScriptUrl scripts = "" ∧ (extractHomeVars scripts).1 ≠ "" ∧
        (extractHomeVars scripts).2 ≠ "" →
      fetchHomePage scripts =
        Except.ok ⟨(extractHomeVars scripts).1, (extractHomeVars scripts).2,
          "https://ping0.cc"⟩) := by
  refine ⟨?_, ⟨?_, ?_⟩, ?_⟩
  · intro p hp
    simp only [fetchHomePage] at hp
    split at hp
    · cases hp
    · rename_i hcond
      push_neg at hcond
      cases hp
      exact ⟨hcond.1, hcond.2.1, hcond.2.2⟩
  · intro he
    simp only [fetchHomePage] at he
    split at he
    · rename_i hcond
      rcases hcond with h | h | h
      · exact Or.inl h
      · exact Or.inr h
      · exact absurd h (resolvedScriptUrl_ne_empty _)
    · cases he
  · intro hor
    simp only [fetchHomePage]
    rw [if_pos]
    rcases hor with h | h
    · exact Or.inl h
    · exact Or.inr (Or.inl h)
  · intro h
    simp only [fetchHomePage]
    rw [if_neg, h.1]
    · have hb : resolveScriptUrl "" = "https://ping0.cc" := by decide
      rw [hb]
    · push_neg
      refine ⟨h.2.1, h.2.2, resolvedScriptUrl_ne_empty _⟩

/-- C3 witness: a page carrying both globals and a matching script
reference resolves to three non-empty parameters. -/
theorem resolver_missing_params_witness :
    fetchHomePage [⟨some "window.x1 = \"abc\"; window.difficulty = \"7\";",
        some "https://ping0.cc/static/js/c.js"⟩] =
      Except.ok ⟨"abc", "7", "https://ping0.cc/static/js/c.js"⟩ ∧
    ("abc" ≠ "" ∧ "7" ≠ "" ∧ "https://ping0.cc/static/js/c.js" ≠ "") :=
  ⟨by rfl,
    (resolver_missing_params
      [⟨some "window.x1 = \"abc\"; window.difficulty = \"7\";",
        some "https://ping0.cc/static/js/c.js"⟩]).1
      ⟨"abc", "7", "https://ping0.cc/static/js/c.js"⟩ (by rfl)⟩

/-- C3 counterexample: an entry page with both globals but *no* script
reference matching `/static/js/` does not fail — `fetchHomePage` succeeds
and silently returns the service root as the script URL. -/
theorem resolver_no_script_cex :
    extractScriptUrl [⟨some "window.x1 = \"abc\"; window.difficulty = \"7\";", none⟩] = "" ∧
    fetchHomePage [⟨some "window.x1 = \"abc\"; window.difficulty = \"7\";", none⟩] =
      Except.ok ⟨"abc", "7", "https://ping0.cc"⟩ := by
  constructor
  · decide
  · rfl

/-! ## The HTML extraction engine (`parseHtmlResponse`, `src/utils/parser.js`)

The response document is abstracted as the results of the cheerio
selections the source performs.  Elements of the labeled owner regions are
kept as node lists so that the remove-labels-then-read-text order of the
source is an actual operation, not baked into the data. -/

/-- The left and right brace characters (kept out of string literals). -/
def lbrace : Char := Char.ofNat 123

/-- See `lbrace`. -/
def rbrace : Char := Char.ofNat 125

/-- The em-dash used to truncate owner names. -/
def emDash : Char := '—'

/-- A child node of a `.content` region: plain text, or a `.label` element
with its text. -/
inductive LNode where
  | txt (s : String)
  | label (s : String)
deriving DecidableEq, Repr

/-- A `.line.loc .content` element: its inner HTML and the `src` attributes
of its images. -/
structure LocEl where
  innerHtml : String
deriving DecidableEq, Repr

/-- The abstraction of a response document: every cheerio selection the
source performs, plus the raw html, body text, title, heading and
error-styled-element text used for diagnostics. -/
structure Doc where
  html : String
  title : String
  scripts : List String
  bodyText : String
  h1Text : String
  errorText : String
  locContents : List LocEl
  locImgSrcs : List String
  asnLinks : List String
  asnnameContents : List (List LNode)
  orgnameContents : List (List LNode)
  lineRows : List (String × String)
  iptypeLabels : List String
  riskEntries : List (String × String)
  nativeipLabels : List String
deriving DecidableEq, Repr

/-- Find the first `>` and return what follows (helper for the
`/<[^>]*>/g` replacement). -/
def dropThroughGt : List Char → Option (List Char)
  | [] => none
  | c :: cs => if c = '>' then some cs else dropThroughGt cs

/-- `html.replace(/<[^>]*>/g, " ")`: each complete tag becomes a space; a
`<` with no closing `>` is left alone.  The fuel argument (initially the
input length, which the consumed input never exceeds) makes the recursion
structural. -/
def stripTagsFuel : Nat → List Char → List Char
  | 0, l => l
  | _, [] => []
  | fuel + 1, c :: cs =>
    if c = '<' then
      match dropThroughGt cs with
      | some rest => ' ' :: stripTagsFuel fuel rest
      | none => c :: stripTagsFuel fuel cs
    else c :: stripTagsFuel fuel cs

/-- See `stripTagsFuel`. -/
def stripTags (l : List Char) : List Char := stripTagsFuel l.length l

/-- Scan a `[^}]*}}` tail: the first `}` must be followed by another `}`
(helper for the `/{{[^}]*}}/g` replacement). -/
def dropVueBody : List Char → Option (List Char)
  | [] => none
  | [_] => none
  | c :: c2 :: cs2 =>
    if c = rbrace then
      if c2 = rbrace then some cs2 else none
    else dropVueBody (c2 :: cs2)

/-- `text.replace(/{{[^}]*}}/g, "")`: remove Vue template expressions
(fuel-structured as in `stripTagsFuel`). -/
def removeVueFuel : Nat → List Char → List Char
  | 0, l => l
  | _, [] => []
  | _, [c] => [c]
  | fuel + 1, c :: c2 :: cs2 =>
    if c = lbrace then
      if c2 = lbrace then
        match dropVueBody cs2 with
        | some rest => removeVueFuel fuel rest
        | none => c :: removeVueFuel fuel (c2 :: cs2)
      else c :: removeVueFuel fuel (c2 :: cs2)
    else c :: removeVueFuel fuel (c2 :: cs2)

/-- See `removeVueFuel`. -/
def removeVue (l : List Char) : List Char := removeVueFuel l.length l

/-- `text.replace(/\s+/g, " ")`: collapse whitespace runs (fuel-structured
as in `stripTagsFuel`). -/
def collapseWsFuel : Nat → List Char → List Char
  | 0, l => l
  | _, [] => []
  | fuel + 1, c :: cs =>
    if jsWs c then ' ' :: collapseWsFuel fuel (cs.dropWhile jsWs)
    else c :: collapseWsFuel fuel cs

/-- See `collapseWsFuel`. -/
def collapseWs (l : List Char) : List Char := collapseWsFuel l.length l

/-- Model of `extractTextBetweenTags` (`src/utils/parser.js` lines 149-160):
strip tags to spaces, remove Vue expressions, collapse whitespace, trim. -/
def extractTextBetweenTags (html : String) : String :=
  jsTrim (String.mk (collapseWs (removeVue (stripTags html.data))))

/-- Strip a literal prefix, returning the rest. -/
def stripPfx (p cs : List Char) : Option (List Char) :=
  if p.isPrefixOf cs then some (cs.drop p.length) else none

/-- The named entities the model decoder knows (the common subset of what
the `he` library decodes; the pages of this service use these). -/
def entityAlts : List (List Char × Char) :=
  [("amp;".data, '&'), ("lt;".data, '<'), ("gt;".data, '>'),
   ("quot;".data, '"'), ("#39;".data, squote), ("apos;".data, squote),
   ("nbsp;".data, ' ')]

/-- Try each entity name in turn after a `&`. -/
def tryEntityAux : List (List Char × Char) → List Char → Option (Char × List Char)
  | [], _ => none
  | p :: ps, cs =>
    match stripPfx p.1 cs with
    | some r => some (p.2, r)
    | none => tryEntityAux ps cs

/-- Decode one named entity after a `&`. -/
def tryEntity (cs : List Char) : Option (Char × List Char) :=
  tryEntityAux entityAlts cs

/-- Entity decoding pass over the characters (fuel-structured as in
`stripTagsFuel`). -/
def decodeEntitiesFuel : Nat → List Char → List Char
  | 0, l => l
  | _, [] => []
  | fuel + 1, c :: cs =>
    if c = '&' then
      match tryEntity cs with
      | some pr => pr.1 :: decodeEntitiesFuel fuel pr.2
      | none => c :: decodeEntitiesFuel fuel cs
    else c :: decodeEntitiesFuel fuel cs

/-- See `decodeEntitiesFuel`. -/
def decodeEntitiesAux (l : List Char) : List Char :=
  decodeEntitiesFuel l.length l

/-- Model of `decodeHTMLEntities` (`src/utils/parser.js` lines 167-177,
wrapping `he.decode`): empty input stays empty. -/
def decodeHTMLEntities (text : String) : String :=
  if text = "" then "" else String.mk (decodeEntitiesAux text.data)

/-- The script globals `extractScriptVariables` looks for
(`src/utils/parser.js` lines 120-122). -/
def scriptVarNames : List String :=
  ["window.ip", "window.tar", "window.longitude", "window.latitude", "window.loc"]

/-- Model of `extractScriptVariables` (lines 116-142): for every script tag
whose content mentions the variable name (case-sensitively), run the
case-insensitive regex `varName\s*=\s*['"]([^'"]*)['"](;|\s)` and store a
truthy capture; later scripts overwrite earlier values. -/
def extractScriptVariables (scripts : List String) : List (String × String) :=
  scripts.foldl
    (fun acc content =>
      scriptVarNames.foldl
        (fun acc2 varName =>
          if strContains content varName then
            match findAssign true true varName content with
            | some v => if v ≠ "" then setAssoc acc2 varName v else acc2
            | none => acc2
          else acc2)
        acc)
    []

/-- The normalized record built by `parseHtmlResponse`.  A `none` field is
an absent key of the JS result object. -/
structure IpRecord where
  ip : Option String
  ip_location : Option String
  country_flag : Option String
  asn : Option String
  asn_owner : Option String
  asn_type : Option String
  organization : Option String
  org_type : Option String
  longitude : Option String
  latitude : Option String
  ip_type : Option String
  risk_value : Option String
  native_ip : Option String
  princess : Option String
deriving DecidableEq, Repr

/-- The empty JS object `{}`. -/
def emptyRecord : IpRecord :=
  ⟨none, none, none, none, none, none, none, none, none, none, none, none,
   none, none⟩

/-- The error object `{message, status}` thrown by the query and parse
layer. -/
structure PError where
  message : String
  status : Option Nat
deriving DecidableEq, Repr

/-- Concatenated text of the nodes that survive `.find(".label").remove()`. -/
def textWithoutLabels (nodes : List LNode) : String :=
  String.join ((nodes.filter (fun n => match n with
      | LNode.txt _ => true
      | LNode.label _ => false)).map
    (fun n => match n with
      | LNode.txt s => s
      | LNode.label s => s))

/-- The texts of the `.label` elements of a region, in order. -/
def labelTexts (nodes : List LNode) : List String :=
  nodes.filterMap (fun n => match n with
    | LNode.label s => some s
    | LNode.txt _ => none)

/-- Does the owner text contain the em-dash? -/
def containsEmDash (s : String) : Bool :=
  s.data.any (fun c => c == emDash)

/-- Owner-name extraction of the `asnname` / `orgname` regions
(`src/utils/parser.js` lines 297-312 and 332-347): remove the `.label`
elements, read and trim the text, and truncate it at the first em-dash. -/
def extractOwner (nodes : List LNode) : String :=
  let raw := jsTrim (textWithoutLabels nodes)
  if containsEmDash raw then
    jsTrim (String.mk (raw.data.takeWhile (fun c => !(c == emDash))))
  else raw

/-- The cleaned (trimmed, truthy) label texts of a region. -/
def cleanLabels (nodes : List LNode) : List String :=
  ((labelTexts nodes).map jsTrim).filter (fun s => s != "")

/-- The owner/type pair extraction loop over the `asnname` (or `orgname`)
`.content` elements: the last element wins; the type field is the `"; "`
join of the labels, or the empty string when there are none. -/
def extractOwnerTypes (contents : List (List LNode)) :
    Option String × Option String :=
  contents.foldl
    (fun _acc nodes =>
      (some (decodeHTMLEntities (extractOwner nodes)),
       some (if cleanLabels nodes = [] then ""
             else joinWith "; " (cleanLabels nodes))))
    (none, none)

/-- IP extraction (lines 207-216): prefer the `window.ip` script global,
else the first dash-segment of the title, trimmed. -/
def extractIp (svIp : String) (title : String) : String :=
  if svIp ≠ "" then svIp else jsTrim ((jsSplit '-' title).headD "")

/-- Location extraction (lines 259-277): prefer the entity-decoded
`window.loc` global; else the last `.line.loc .content` element whose
tag-stripped text, with the first `错误提交` removed, trims and decodes to a
truthy string. -/
def extractLocField (svLoc : String) (locContents : List LocEl) : Option String :=
  if svLoc ≠ "" then some (decodeHTMLEntities svLoc)
  else
    locContents.foldl
      (fun acc el =>
        let text := decodeHTMLEntities
          (jsTrim (removeFirst (extractTextBetweenTags el.innerHtml) "错误提交"))
        if text ≠ "" then some text else acc)
      none

/-- Country-flag extraction (lines 280-289): the last image `src` wins; the
flag code is the filename with the first `.png` removed. -/
def extractFlag (srcs : List String) : Option String :=
  srcs.foldl
    (fun acc flagSrc =>
      if flagSrc ≠ "" then
        some (removeFirst ((jsSplit '/' flagSrc).getLastD "") ".png")
      else acc)
    none

/-- ASN extraction (lines 292-294): the trimmed text of the last
`.line.asn .content a` element. -/
def extractAsn (links : List String) : Option String :=
  links.foldl (fun _acc t => some (jsTrim t)) none

/-- Longitude/latitude extraction (lines 367-388): prefer the script
global; else the last `.line` row whose trimmed `.name` text equals the
label, reading its trimmed `.content` text. -/
def extractLineField (svVal : String) (label : String)
    (rows : List (String × String)) : Option String :=
  if svVal ≠ "" then some svVal
  else
    rows.foldl
      (fun acc row =>
        if jsTrim row.1 = label then some (jsTrim row.2) else acc)
      none

/-- IP-type extraction (lines 390-402): join the truthy trimmed labels with
`"; "`; set no key at all when there are none. -/
def extractIpType (labels : List String) : Option String :=
  let ts := (labels.map jsTrim).filter (fun s => s != "")
  if ts = [] then none else some (joinWith "; " ts)

/-- Risk-value extraction (lines 405-411): the last entry whose value and
label are both truthy yields `value ++ " " ++ label`. -/
def extractRisk (entries : List (String × String)) : Option String :=
  entries.foldl
    (fun acc e =>
      let v := jsTrim e.1
      let lab := jsTrim e.2
      if v ≠ "" ∧ lab ≠ "" then some (v ++ " " ++ lab) else acc)
    none

/-- Native-IP extraction (lines 414-416): the trimmed text of the last
`.line.line-nativeip .content .label` element. -/
def extractNativeIp (labels : List String) : Option String :=
  labels.foldl (fun _acc t => some (jsTrim t)) none

/-- `html.includes(m) || pageText.includes(m)`, the marker test of the
no-IP classification block. -/
def hasMarker (d : Doc) (m : String) : Bool :=
  strContains d.html m || strContains d.bodyText m

/-- The bounded excerpt: at most 150 characters (147 plus `"..."`). -/
def pageExcerpt (s : String) : String :=
  if s.length > 150 then String.mk (s.data.take 147) ++ "..." else s

/-- The `window.ip`-or-title IP of a document. -/
def extractedIp (d : Doc) : String :=
  extractIp ((lookupAssoc (extractScriptVariables d.scripts) "window.ip").getD "")
    d.title

/-- The no-IP error classification block of `parseHtmlResponse`
(`src/utils/parser.js` lines 219-256), translated branch for branch; the
local `pageText`, `title`, `h1Text` and `errorText` bindings of the source
are inlined. -/
def noIpClassify (d : Doc) : PError :=
  if hasMarker d "访问频率过高" then ⟨"访问频率过高，请稍后再试", none⟩
  else if hasMarker d "系统发生错误" then ⟨"网站系统错误，请稍后再试", none⟩
  else if hasMarker d "无法访问" then ⟨"网站无法访问，可能临时维护中", none⟩
  else if hasMarker d "查询不到此IP" then
    ⟨"查询不到此IP信息，可能是无效IP或私有IP", none⟩
  else if hasMarker d "访问被拒绝" then ⟨"访问被拒绝，可能是Cookie已失效", none⟩
  else if hasMarker d "robots" || strContains d.bodyText "机器人" then
    ⟨"被网站识别为机器人或爬虫，请稍后再试", none⟩
  else if d.bodyText.length < 1000 then
    ⟨"页面内容异常(内容长度: " ++ toString d.bodyText.length ++ ")，内容: \"" ++
      pageExcerpt d.bodyText ++ "\"", none⟩
  else if jsTrim d.errorText ≠ "" then
    ⟨"网站返回错误信息: \"" ++ jsTrim d.errorText ++ "\"", none⟩
  else if jsTrim d.title ≠ "" ∧ jsTrim d.title ≠ "Ping0.cc" then
    ⟨"页面标题异常: \"" ++ jsTrim d.title ++ "\"，页面内容: \"" ++
      pageExcerpt d.bodyText ++ "\"", none⟩
  else if jsTrim d.h1Text ≠ "" then
    ⟨"页面内容异常，H1文本: \"" ++ jsTrim d.h1Text ++ "\"，页面摘要: \"" ++
      pageExcerpt d.bodyText ++ "\"", none⟩
  else
    ⟨"无法从页面提取IP信息，页面内容: \"" ++ pageExcerpt d.bodyText ++ "\"", none⟩

/-- The record built on the success path of `parseHtmlResponse`, before the
final attribution field. -/
def baseRecord (d : Doc) : IpRecord :=
  let scriptValues := extractScriptVariables d.scripts
  { ip := some (extractedIp d)
    ip_location :=
      extractLocField ((lookupAssoc scriptValues "window.loc").getD "")
        d.locContents
    country_flag := extractFlag d.locImgSrcs
    asn := extractAsn d.asnLinks
    asn_owner := (extractOwnerTypes d.asnnameContents).1
    asn_type := (extractOwnerTypes d.asnnameContents).2
    organization := (extractOwnerTypes d.orgnameContents).1
    org_type := (extractOwnerTypes d.orgnameContents).2
    longitude :=
      extractLineField ((lookupAssoc scriptValues "window.longitude").getD "")
        "经度" d.lineRows
    latitude :=
      extractLineField ((lookupAssoc scriptValues "window.latitude").getD "")
        "纬度" d.lineRows
    ip_type := extractIpType d.iptypeLabels
    risk_value := extractRisk d.riskEntries
    native_ip := extractNativeIp d.nativeipLabels
    princess := none }

/-- Model of `parseHtmlResponse` (`src/utils/parser.js` lines 184-426). -/
def parseHtmlResponse (d : Doc) : Except PError IpRecord :=
  if d.html = "" then Except.error ⟨"HTML内容为空", none⟩
  else if strContains d.html "系统发生错误" then
    Except.error ⟨"网站返回错误: 系统发生错误", none⟩
  else if strContains d.title "系统发生错误" || strContains d.title "Error" then
    Except.error ⟨"网站返回错误页面: " ++ d.title, none⟩
  else if extractedIp d = "" then Except.error (noIpClassify d)
  else if ((baseRecord d).ip).getD "" = "" then Except.ok emptyRecord
  else Except.ok { baseRecord d with princess := some "https://linux.do/u/amna" }

/-! ## The credentialed query (`queryIpInfo`, `src/utils/parser.js`) -/

/-- The outcome of the single axios GET: a response with some status and
parsed body, or a transport-level error with an error code and message. -/
inductive HttpOutcome where
  | response (status : Nat) (body : Doc)
  | netError (code : Option String) (message : String)
deriving DecidableEq, Repr

/-- `validateStatus: status => status === 200` (line 45): only an exact 200
is accepted as success. -/
def validateStatus (status : Nat) : Bool := status == 200

/-- The HTTP-status error mapping (lines 64-79). -/
def httpStatusMessage (status : Nat) : String :=
  if status = 403 then "访问被拒绝，cookie可能已失效"
  else if status = 429 then "请求过于频繁，请稍后再试"
  else if status = 404 then "查询不到此IP信息，可能是无效IP或地址"
  else if status = 500 then "网站服务器内部错误，请稍后再试"
  else if status = 502 ∨ status = 503 ∨ status = 504 then
    "网站服务暂时不可用，可能正在维护"
  else "查询失败，HTTP状态码: " ++ toString status

/-- The transport error mapping (lines 81-100), including the
` (错误代码: ...)` suffix added when an error code is present and there is
no HTTP response. -/
def netErrorMessage (code : Option String) (message : String) : String :=
  let base :=
    if code = some "ECONNABORTED" then "查询超时，请检查网络连接"
    else if code = some "ECONNREFUSED" then "连接被拒绝，网站可能暂时无法访问"
    else if code = some "ETIMEDOUT" then "网络连接超时，请检查网络状态"
    else if code = some "ENETUNREACH" then "网络不可达，请检查网络连接"
    else if strContains message "certificate" then
      "SSL证书验证失败，可能存在网络问题"
    else if strContains message "getaddrinfo" then
      "DNS解析失败，无法连接到服务器"
    else if message ≠ "" then message
    else "未知错误"
  match code with
  | some c => base ++ " (错误代码: " ++ c ++ ")"
  | none => base

/-- The `{js1key, pow}` cookie object passed to `queryIpInfo`. -/
structure CookiesIn where
  js1key : Option String
  pow : Option String
deriving DecidableEq, Repr

/-- Model of `queryIpInfo` (`src/utils/parser.js` lines 20-109): reject
incomplete cookies up front; classify non-200 statuses and transport
errors; parse a 200 body, mapping a parse error to `{message, status:null}`
and an empty parse result to the empty-result error. -/
def queryIpInfo (cookies : CookiesIn) (outcome : HttpOutcome) :
    Except PError IpRecord :=
  if cookies.js1key.getD "" = "" ∨ cookies.pow.getD "" = "" then
    Except.error ⟨"必要的cookie不完整，无法进行查询", none⟩
  else
    match outcome with
    | HttpOutcome.response status body =>
      if validateStatus status then
        match parseHtmlResponse body with
        | Except.error e =>
          Except.error ⟨if e.message ≠ "" then e.message else "未知错误", none⟩
        | Except.ok r =>
          if r = emptyRecord then
            Except.error ⟨"解析结果为空，可能是cookie已失效或网站结构发生变化", none⟩
          else Except.ok r
      else Except.error ⟨httpStatusMessage status, some status⟩
    | HttpOutcome.netError code message =>
      Except.error ⟨netErrorMessage code message, none⟩

/-! ## The script cache (`checkAndUpdateRawJs`, `src/utils/fetcher.js`) -/

/-- The environment of one `checkAndUpdateRawJs` call: the outcome of
`fetchHomePage`, the current durable `raw.js` copy (if any), and the
outcome the network would give a download. -/
structure FetchEnv where
  home : Except String HomeParams
  rawJsFile : Option String
  download : Except String String
deriving Repr

/-- The result triple `{jsContent, x1, difficulty}`. -/
structure CheckResult where
  jsContent : String
  x1 : String
  difficulty : String
deriving DecidableEq, Repr

/-- Model of `fetchAndSaveScript` (`src/utils/fetcher.js` lines 544-564):
download the script and write it to the durable file; returns the content,
the new file state, and the fact that a write happened. -/
def fetchAndSaveScript (download : Except String String) :
    Except String (String × Option String × Bool) :=
  match download with
  | Except.error e => Except.error e
  | Except.ok jsContent => Except.ok (jsContent, some jsContent, true)

/-- Model of `checkAndUpdateRawJs` (`src/utils/fetcher.js` lines 572-605).
The second and third components of a successful result are the durable file
after the call and whether the file was written. -/
def checkAndUpdateRawJs (forceUpdate : Bool) (env : FetchEnv) :
    Except String (CheckResult × Option String × Bool) :=
  match env.home with
  | Except.error e => Except.error e
  | Except.ok hp =>
    if forceUpdate then
      match fetchAndSaveScript env.download with
      | Except.error e => Except.error e
      | Except.ok (js, file2, w) => Except.ok (⟨js, hp.x1, hp.difficulty⟩, file2, w)
    else
      match env.rawJsFile with
      | none =>
        match fetchAndSaveScript env.download with
        | Except.error e => Except.error e
        | Except.ok (js, file2, w) => Except.ok (⟨js, hp.x1, hp.difficulty⟩, file2, w)
      | some content =>
        Except.ok (⟨content, hp.x1, hp.difficulty⟩, env.rawJsFile, false)

/-! ## Claims about the query and cache layers -/

/-- C8: Script acquisition behaves as a cache with explicit refresh: with
`forceRefresh` it always downloads and overwrites the durable copy; else,
with no durable copy, it downloads and stores one; else it reads the
durable copy without writing (the cache file is written only on download or
forced refresh). -/
theorem script_cache_behavior (env : FetchEnv) (hp : HomeParams)
    (hh : env.home = Except.ok hp) :
    (∀ js, env.download = Except.ok js →
        checkAndUpdateRawJs true env =
          Except.ok (⟨js, hp.x1, hp.difficulty⟩, some js, true)) ∧
    (env.rawJsFile = none → ∀ js, env.download = Except.ok js →
        checkAndUpdateRawJs false env =
          Except.ok (⟨js, hp.x1, hp.difficulty⟩, some js, true)) ∧
    (∀ c, env.rawJsFile = some c →
        checkAndUpdateRawJs false env =
          Except.ok (⟨c, hp.x1, hp.difficulty⟩, some c, false)) := by
  refine ⟨?_, ?_, ?_⟩
  · intro js hd
    unfold checkAndUpdateRawJs fetchAndSaveScript
    rw [hh, hd]
    rfl
  · intro hf js hd
    unfold checkAndUpdateRawJs fetchAndSaveScript
    rw [hh, hf, hd]
    rfl
  · intro c hc
    unfold checkAndUpdateRawJs
    rw [hh, hc]
    rfl

/-- C8 witness: with a durable copy present and no force flag, the cached
content is returned and nothing is written, even though a fresh download
would be available. -/
theorem script_cache_behavior_witness :
    checkAndUpdateRawJs false
        ⟨Except.ok ⟨"x1v", "5", "https://ping0.cc/static/js/c.js"⟩,
         some "cached", Except.ok "fresh"⟩ =
      Except.ok (⟨"cached", "x1v", "5"⟩, some "cached", false) :=
  (script_cache_behavior
      ⟨Except.ok ⟨"x1v", "5", "https://ping0.cc/static/js/c.js"⟩,
       some "cached", Except.ok "fresh"⟩
      ⟨"x1v", "5", "https://ping0.cc/static/js/c.js"⟩ rfl).2.2 "cached" rfl

/-- C7: Only an exact 200 status is accepted: every non-200 response makes
the query fail with the classified status message carrying that status; in
particular a 403 yields the access-denied error with status 403. -/
theorem query_rejects_non200 (k p : String) (hk : k ≠ "") (hp2 : p ≠ "")
    (status : Nat) (body : Doc) (hs : status ≠ 200) :
    queryIpInfo ⟨some k, some p⟩ (HttpOutcome.response status body)
      = Except.error ⟨httpStatusMessage status, some status⟩ ∧
    queryIpInfo ⟨some k, some p⟩ (HttpOutcome.response 403 body)
      = Except.error ⟨"访问被拒绝，cookie可能已失效", some 403⟩ := by
  have hcook : ¬((some k : Option String).getD "" = "" ∨
      (some p : Option String).getD "" = "") := by
    push_neg
    exact ⟨hk, hp2⟩
  constructor
  · unfold queryIpInfo
    rw [if_neg hcook]
    have hv : validateStatus status = false := by
      unfold validateStatus
      exact beq_eq_false_iff_ne.mpr hs
    dsimp only
    rw [if_neg (by rw [hv]; exact Bool.false_ne_true)]
  · unfold queryIpInfo
    rw [if_neg hcook]
    rfl

/-- C7 witness at status 403. -/
theorem query_rejects_non200_witness :
    queryIpInfo ⟨some "kv", some "pv"⟩
        (HttpOutcome.response 403
          ⟨"", "", [], "", "", "", [], [], [], [], [], [], [], [], []⟩)
      = Except.error ⟨"访问被拒绝，cookie可能已失效", some 403⟩ :=
  (query_rejects_non200 "kv" "pv" (by decide) (by decide) 403
    ⟨"", "", [], "", "", "", [], [], [], [], [], [], [], [], []⟩ (by decide)).2

lemma parse_ok_shape (d : Doc) (r : IpRecord)
    (h : parseHtmlResponse d = Except.ok r) :
    r = emptyRecord ∨
      ((∃ s, r.ip = some s ∧ s ≠ "") ∧
        r.princess = some "https://linux.do/u/amna") := by
  unfold parseHtmlResponse at h
  split at h
  · cases h
  · split at h
    · cases h
    · split at h
      · cases h
      · split at h
        · cases h
        · rename_i h1 h2 h3 h4
          split at h
          · cases h
            exact Or.inl rfl
          · cases h
            refine Or.inr ⟨⟨extractedIp d, rfl, h4⟩, rfl⟩

/-- C9: Every record returned by a successful credentialed query has a
non-empty mandatory `ip` field and the fixed attribution field appended. -/
theorem record_has_ip_and_attribution (cookies : CookiesIn)
    (outcome : HttpOutcome) (r : IpRecord)
    (h : queryIpInfo cookies outcome = Except.ok r) :
    (∃ s, r.ip = some s ∧ s ≠ "") ∧
      r.princess = some "https://linux.do/u/amna" := by
  unfold queryIpInfo at h
  split at h
  · cases h
  · split at h
    · rename_i status body
      split at h
      · cases hparse : parseHtmlResponse body with
        | error e =>
          rw [hparse] at h
          cases h
        | ok r2 =>
          rw [hparse] at h
          change (if r2 = emptyRecord then
              Except.error (⟨"解析结果为空，可能是cookie已失效或网站结构发生变化", none⟩ : PError)
            else Except.ok r2) = Except.ok r at h
          by_cases hne : r2 = emptyRecord
          · rw [if_pos hne] at h
            cases h
          · rw [if_neg hne] at h
            cases h
            rcases parse_ok_shape body _ hparse with he | hok
            · exact absurd he hne
            · exact hok
      · cases h
    · cases h

/-- C9 witness: a 200 response whose body carries a `window.ip` global
yields a record with that IP and the attribution field. -/
theorem record_has_ip_and_attribution_witness :
    (∃ s, (⟨some "1.1.1.1", none, none, none, none, none, none, none, none,
        none, none, none, none,
        some "https://linux.do/u/amna"⟩ : IpRecord).ip = some s ∧ s ≠ "") ∧
      (⟨some "1.1.1.1", none, none, none, none, none, none, none, none,
        none, none, none, none,
        some "https://linux.do/u/amna"⟩ : IpRecord).princess
        = some "https://linux.do/u/amna" :=
  record_has_ip_and_attribution ⟨some "kv", some "pv"⟩
    (HttpOutcome.response 200
      ⟨"x", "Ping0.cc", ["window.ip = \"1.1.1.1\";"], "", "", "",
       [], [], [], [], [], [], [], [], []⟩)
    ⟨some "1.1.1.1", none, none, none, none, none, none, none, none,
      none, none, none, none, some "https://linux.do/u/amna"⟩
    (by rfl)

/-! ## Claims about the extraction fields -/

/-- A document on which `parseHtmlResponse` reaches its success path. -/
def SuccessReach (d : Doc) : Prop :=
  d.html ≠ "" ∧ strContains d.html "系统发生错误" = false ∧
  strContains d.title "系统发生错误" = false ∧
  strContains d.title "Error" = false ∧ extractedIp d ≠ ""

lemma parse_success (d : Doc) (h : SuccessReach d) :
    parseHtmlResponse d =
      Except.ok { baseRecord d with princess := some "https://linux.do/u/amna" } := by
  obtain ⟨h1, h2, h3, h4, h5⟩ := h
  unfold parseHtmlResponse
  rw [if_neg h1, if_neg (by rw [h2]; exact Bool.false_ne_true),
    if_neg (by rw [h3, h4]; simp), if_neg h5,
    if_neg (show ¬(((baseRecord d).ip).getD "" = "") from by
      show ¬((some (extractedIp d)).getD "" = "")
      simpa using h5)]

/-- C10: A document with no IP-type label elements yields a record in which
the `ip_type` key is absent (not the empty string); `ip_type` is a
`"; "`-joined list only when at least one label is present; by contrast,
`org_type` and `asn_type` are the empty string (present) when their region
exists but carries no tags. -/
theorem iptype_absent_vs_empty (d : Doc) (hre : SuccessReach d) :
    ∃ r, parseHtmlResponse d = Except.ok r ∧
      (d.iptypeLabels = [] → r.ip_type = none) ∧
      (∀ s, r.ip_type = some s → d.iptypeLabels ≠ [] ∧
        s = joinWith "; " ((d.iptypeLabels.map jsTrim).filter (fun x => x != ""))) ∧
      (∀ nodes, d.orgnameContents = [nodes] → labelTexts nodes = [] →
        r.org_type = some "") ∧
      (∀ nodes, d.asnnameContents = [nodes] → labelTexts nodes = [] →
        r.asn_type = some "") := by
  refine ⟨_, parse_success d hre, ?_, ?_, ?_, ?_⟩
  · intro he
    show extractIpType d.iptypeLabels = none
    rw [he]
    rfl
  · intro s hs
    have hs2 : extractIpType d.iptypeLabels = some s := hs
    simp only [extractIpType] at hs2
    split at hs2
    · cases hs2
    · rename_i hne
      constructor
      · intro he
        rw [he] at hne
        exact hne rfl
      · cases hs2
        rfl
  · intro nodes hc hl
    show (extractOwnerTypes d.orgnameContents).2 = some ""
    rw [hc]
    unfold extractOwnerTypes
    simp only [List.foldl_cons, List.foldl_nil]
    rw [if_pos (by unfold cleanLabels; rw [hl]; rfl)]
  · intro nodes hc hl
    show (extractOwnerTypes d.asnnameContents).2 = some ""
    rw [hc]
    unfold extractOwnerTypes
    simp only [List.foldl_cons, List.foldl_nil]
    rw [if_pos (by unfold cleanLabels; rw [hl]; rfl)]

/-- C10 witness: a document whose IP-type region has no labels and whose
owner regions exist without tags. -/
theorem iptype_absent_vs_empty_witness :
    ∃ r, parseHtmlResponse
        ⟨"x", "Ping0.cc", ["window.ip = \"1.1.1.1\";"], "", "", "",
         [], [], [], [[LNode.txt "AS Example"]], [[LNode.txt "Org Example"]],
         [], [], [], []⟩ = Except.ok r ∧
      (([] : List String) = [] → r.ip_type = none) ∧
      (∀ s, r.ip_type = some s → ([] : List String) ≠ [] ∧
        s = joinWith "; " ((([] : List String).map jsTrim).filter (fun x => x != ""))) ∧
      (∀ nodes, [[LNode.txt "Org Example"]] = [nodes] → labelTexts nodes = [] →
        r.org_type = some "") ∧
      (∀ nodes, [[LNode.txt "AS Example"]] = [nodes] → labelTexts nodes = [] →
        r.asn_type = some "") :=
  iptype_absent_vs_empty
    ⟨"x", "Ping0.cc", ["window.ip = \"1.1.1.1\";"], "", "", "",
     [], [], [], [[LNode.txt "AS Example"]], [[LNode.txt "Org Example"]],
     [], [], [], []⟩
    ⟨by decide, by rfl, by rfl, by rfl, by decide⟩

/-- C6: In a labeled organization (or ASN-owner) region, extraction removes
the tag elements before reading the owner text, truncates the owner text at
the em-dash, entity-decodes it, and joins the collected tag texts with
`"; "` into the org-type (or ASN-type) field, which is the empty string
when no tags exist. -/
theorem owner_extraction (d : Doc) (nodes anodes : List LNode)
    (hre : SuccessReach d)
    (horg : d.orgnameContents = [nodes])
    (hasn : d.asnnameContents = [anodes])
    (hd1 : containsEmDash (jsTrim (textWithoutLabels nodes)) = true)
    (hd2 : containsEmDash (jsTrim (textWithoutLabels anodes)) = true) :
    ∃ r, parseHtmlResponse d = Except.ok r ∧
      r.organization = some (decodeHTMLEntities (jsTrim (String.mk
        ((jsTrim (textWithoutLabels nodes)).data.takeWhile
          (fun c => !(c == emDash)))))) ∧
      r.org_type = some (if cleanLabels nodes = [] then ""
        else joinWith "; " (cleanLabels nodes)) ∧
      r.asn_owner = some (decodeHTMLEntities (jsTrim (String.mk
        ((jsTrim (textWithoutLabels anodes)).data.takeWhile
          (fun c => !(c == emDash)))))) ∧
      r.asn_type = some (if cleanLabels anodes = [] then ""
        else joinWith "; " (cleanLabels anodes)) := by
  refine ⟨_, parse_success d hre, ?_, ?_, ?_, ?_⟩
  · show (extractOwnerTypes d.orgnameContents).1 = _
    rw [horg]
    unfold extractOwnerTypes
    simp only [List.foldl_cons, List.foldl_nil]
    unfold extractOwner
    rw [if_pos hd1]
  · show (extractOwnerTypes d.orgnameContents).2 = _
    rw [horg]
    unfold extractOwnerTypes
    simp only [List.foldl_cons, List.foldl_nil]
  · show (extractOwnerTypes d.asnnameContents).1 = _
    rw [hasn]
    unfold extractOwnerTypes
    simp only [List.foldl_cons, List.foldl_nil]
    unfold extractOwner
    rw [if_pos hd2]
  · show (extractOwnerTypes d.asnnameContents).2 = _
    rw [hasn]
    unfold extractOwnerTypes
    simp only [List.foldl_cons, List.foldl_nil]

/-- C6 witness: owner text `"Example Org — legacy"` with tags
`["ISP", "Business"]` yields organization `"Example Org"` and org-type
`"ISP; Business"` (and likewise for the ASN region). -/
theorem owner_extraction_witness :
    ∃ r, parseHtmlResponse
        ⟨"x", "Ping0.cc", ["window.ip = \"1.1.1.1\";"], "", "", "",
         [], [], [],
         [[LNode.txt "Example Org — legacy", LNode.label "ISP",
           LNode.label "Business"]],
         [[LNode.txt "Example Org — legacy", LNode.label "ISP",
           LNode.label "Business"]],
         [], [], [], []⟩ = Except.ok r ∧
      r.organization = some "Example Org" ∧ r.org_type = some "ISP; Business" ∧
      r.asn_owner = some "Example Org" ∧ r.asn_type = some "ISP; Business" := by
  obtain ⟨r, hr, h1, h2, h3, h4⟩ :=
    owner_extraction
      ⟨"x", "Ping0.cc", ["window.ip = \"1.1.1.1\";"], "", "", "",
       [], [], [],
       [[LNode.txt "Example Org — legacy", LNode.label "ISP",
         LNode.label "Business"]],
       [[LNode.txt "Example Org — legacy", LNode.label "ISP",
         LNode.label "Business"]],
       [], [], [], []⟩
      [LNode.txt "Example Org — legacy", LNode.label "ISP", LNode.label "Business"]
      [LNode.txt "Example Org — legacy", LNode.label "ISP", LNode.label "Business"]
      ⟨by decide, by rfl, by rfl, by rfl, by decide⟩ rfl rfl (by decide) (by decide)
  refine ⟨r, hr, ?_, ?_, ?_, ?_⟩
  · rw [h1]
    rfl
  · rw [h2]
    rfl
  · rw [h3]
    rfl
  · rw [h4]
    rfl

/-! ## Claim C5: classification of no-IP pages -/

/-- None of the six marker tests of the no-IP block fires. -/
def noPageMarker (d : Doc) : Prop :=
  hasMarker d "访问频率过高" = false ∧ hasMarker d "系统发生错误" = false ∧
  hasMarker d "无法访问" = false ∧ hasMarker d "查询不到此IP" = false ∧
  hasMarker d "访问被拒绝" = false ∧
  (hasMarker d "robots" || strContains d.bodyText "机器人") = false

lemma pageExcerpt_length (s : String) : (pageExcerpt s).length ≤ 150 := by
  unfold pageExcerpt
  split
  · rw [String.length_append]
    have h1 : (String.mk (s.data.take 147)).length = (s.data.take 147).length := rfl
    have h2 : (s.data.take 147).length ≤ 147 := by
      rw [List.length_take]
      omega
    have h3 : ("..." : String).length = 3 := rfl
    rw [h1, h3]
    omega
  · rename_i h
    omega

lemma noIpClassify_status (d : Doc) : (noIpClassify d).status = none := by
  unfold noIpClassify
  repeat (first | rfl | split)

lemma noIpClassify_noMarker (d : Doc) (hnm : noPageMarker d) :
    noIpClassify d =
      (if d.bodyText.length < 1000 then
        ⟨"页面内容异常(内容长度: " ++ toString d.bodyText.length ++
          ")，内容: \"" ++ pageExcerpt d.bodyText ++ "\"", none⟩
      else if jsTrim d.errorText ≠ "" then
        ⟨"网站返回错误信息: \"" ++ jsTrim d.errorText ++ "\"", none⟩
      else if jsTrim d.title ≠ "" ∧ jsTrim d.title ≠ "Ping0.cc" then
        ⟨"页面标题异常: \"" ++ jsTrim d.title ++ "\"，页面内容: \"" ++
          pageExcerpt d.bodyText ++ "\"", none⟩
      else if jsTrim d.h1Text ≠ "" then
        ⟨"页面内容异常，H1文本: \"" ++ jsTrim d.h1Text ++ "\"，页面摘要: \"" ++
          pageExcerpt d.bodyText ++ "\"", none⟩
      else
        ⟨"无法从页面提取IP信息，页面内容: \"" ++ pageExcerpt d.bodyText ++ "\"",
          none⟩ : PError) := by
  obtain ⟨hm1, hm2, hm3, hm4, hm5, hm6⟩ := hnm
  unfold noIpClassify
  rw [if_neg (bfalse hm1), if_neg (bfalse hm2), if_neg (bfalse hm3),
    if_neg (bfalse hm4), if_neg (bfalse hm5), if_neg (bfalse hm6)]

/-- C5 (amended): a document from which no IP can be determined is
classified: the marker phrases are tested in order (rate-limited, internal
system error, unreachable, IP-not-found, access-denied, bot-detected) and
the matching classified error is raised; with no marker, a body shorter
than 1000 characters yields a generic error carrying the body length and a
bounded (≤150 characters) excerpt; otherwise, in order of preference, a
matched error-styled element text is reported *alone* (without the
excerpt), then the page title (if non-default) with the excerpt, then the
first heading with the excerpt, then the excerpt alone. -/
theorem noip_classification (d : Doc)
    (h1 : d.html ≠ "") (h2 : strContains d.html "系统发生错误" = false)
    (h3 : strContains d.title "系统发生错误" = false)
    (h4 : strContains d.title "Error" = false)
    (h5 : extractedIp d = "") :
    parseHtmlResponse d = Except.error (noIpClassify d) ∧
    (noIpClassify d).status = none ∧
    (pageExcerpt d.bodyText).length ≤ 150 ∧
    (hasMarker d "访问频率过高" = true →
      noIpClassify d = ⟨"访问频率过高，请稍后再试", none⟩) ∧
    (hasMarker d "访问频率过高" = false → hasMarker d "系统发生错误" = true →
      noIpClassify d = ⟨"网站系统错误，请稍后再试", none⟩) ∧
    (hasMarker d "访问频率过高" = false → hasMarker d "系统发生错误" = false →
      hasMarker d "无法访问" = true →
      noIpClassify d = ⟨"网站无法访问，可能临时维护中", none⟩) ∧
    (hasMarker d "访问频率过高" = false → hasMarker d "系统发生错误" = false →
      hasMarker d "无法访问" = false → hasMarker d "查询不到此IP" = true →
      noIpClassify d = ⟨"查询不到此IP信息，可能是无效IP或私有IP", none⟩) ∧
    (hasMarker d "访问频率过高" = false → hasMarker d "系统发生错误" = false →
      hasMarker d "无法访问" = false → hasMarker d "查询不到此IP" = false →
      hasMarker d "访问被拒绝" = true →
      noIpClassify d = ⟨"访问被拒绝，可能是Cookie已失效", none⟩) ∧
    (hasMarker d "访问频率过高" = false → hasMarker d "系统发生错误" = false →
      hasMarker d "无法访问" = false → hasMarker d "查询不到此IP" = false →
      hasMarker d "访问被拒绝" = false →
      (hasMarker d "robots" || strContains d.bodyText "机器人") = true →
      noIpClassify d = ⟨"被网站识别为机器人或爬虫，请稍后再试", none⟩) ∧
    (noPageMarker d → d.bodyText.length < 1000 →
      noIpClassify d = ⟨"页面内容异常(内容长度: " ++ toString d.bodyText.length ++
        ")，内容: \"" ++ pageExcerpt d.bodyText ++ "\"", none⟩) ∧
    (noPageMarker d → 1000 ≤ d.bodyText.length → jsTrim d.errorText ≠ "" →
      noIpClassify d = ⟨"网站返回错误信息: \"" ++ jsTrim d.errorText ++ "\"", none⟩) ∧
    (noPageMarker d → 1000 ≤ d.bodyText.length → jsTrim d.errorText = "" →
      jsTrim d.title ≠ "" → jsTrim d.title ≠ "Ping0.cc" →
      noIpClassify d = ⟨"页面标题异常: \"" ++ jsTrim d.title ++ "\"，页面内容: \"" ++
        pageExcerpt d.bodyText ++ "\"", none⟩) ∧
    (noPageMarker d → 1000 ≤ d.bodyText.length → jsTrim d.errorText = "" →
      (jsTrim d.title = "" ∨ jsTrim d.title = "Ping0.cc") → jsTrim d.h1Text ≠ "" →
      noIpClassify d = ⟨"页面内容异常，H1文本: \"" ++ jsTrim d.h1Text ++
        "\"，页面摘要: \"" ++ pageExcerpt d.bodyText ++ "\"", none⟩) ∧
    (noPageMarker d → 1000 ≤ d.bodyText.length → jsTrim d.errorText = "" →
      (jsTrim d.title = "" ∨ jsTrim d.title = "Ping0.cc") → jsTrim d.h1Text = "" →
      noIpClassify d = ⟨"无法从页面提取IP信息，页面内容: \"" ++
        pageExcerpt d.bodyText ++ "\"", none⟩) := by
  refine ⟨?_, noIpClassify_status d, pageExcerpt_length d.bodyText,
    ?_, ?_, ?_, ?_, ?_, ?_, ?_, ?_, ?_, ?_, ?_⟩
  · unfold parseHtmlResponse
    rw [if_neg h1, if_neg (by rw [h2]; exact Bool.false_ne_true),
      if_neg (by rw [h3, h4]; simp), if_pos h5]
  · intro hm1
    unfold noIpClassify
    rw [if_pos hm1]
  · intro hm1 hm2
    unfold noIpClassify
    rw [if_neg (bfalse hm1), if_pos hm2]
  · intro hm1 hm2 hm3
    unfold noIpClassify
    rw [if_neg (bfalse hm1), if_neg (bfalse hm2), if_pos hm3]
  · intro hm1 hm2 hm3 hm4
    unfold noIpClassify
    rw [if_neg (bfalse hm1), if_neg (bfalse hm2), if_neg (bfalse hm3),
      if_pos hm4]
  · intro hm1 hm2 hm3 hm4 hm5
    unfold noIpClassify
    rw [if_neg (bfalse hm1), if_neg (bfalse hm2), if_neg (bfalse hm3),
      if_neg (bfalse hm4), if_pos hm5]
  · intro hm1 hm2 hm3 hm4 hm5 hm6
    unfold noIpClassify
    rw [if_neg (bfalse hm1), if_neg (bfalse hm2), if_neg (bfalse hm3),
      if_neg (bfalse hm4), if_neg (bfalse hm5), if_pos hm6]
  · intro hnm hlen
    rw [noIpClassify_noMarker d hnm, if_pos hlen]
  · intro hnm hlen herr
    rw [noIpClassify_noMarker d hnm,
      if_neg (show ¬(d.bodyText.length < 1000) by omega), if_pos herr]
  · intro hnm hlen herr htitle1 htitle2
    rw [noIpClassify_noMarker d hnm,
      if_neg (show ¬(d.bodyText.length < 1000) by omega),
      if_neg (show ¬(jsTrim d.errorText ≠ "") from fun hc => hc herr),
      if_pos ⟨htitle1, htitle2⟩]
  · intro hnm hlen herr htitle hh1
    rw [noIpClassify_noMarker d hnm,
      if_neg (show ¬(d.bodyText.length < 1000) by omega),
      if_neg (show ¬(jsTrim d.errorText ≠ "") from fun hc => hc herr),
      if_neg (show ¬(jsTrim d.title ≠ "" ∧ jsTrim d.title ≠ "Ping0.cc") from by
        rcases htitle with ht | ht
        · intro hc
          exact hc.1 ht
        · intro hc
          exact hc.2 ht),
      if_pos hh1]
  · intro hnm hlen herr htitle hh1
    rw [noIpClassify_noMarker d hnm,
      if_neg (show ¬(d.bodyText.length < 1000) by omega),
      if_neg (show ¬(jsTrim d.errorText ≠ "") from fun hc => hc herr),
      if_neg (show ¬(jsTrim d.title ≠ "" ∧ jsTrim d.title ≠ "Ping0.cc") from by
        rcases htitle with ht | ht
        · intro hc
          exact hc.1 ht
        · intro hc
          exact hc.2 ht),
      if_neg (show ¬(jsTrim d.h1Text ≠ "") from fun hc => hc hh1)]

/-- C5 witness: a page with no resolvable IP whose body carries the
rate-limit marker is classified as the rate-limit error. -/
theorem noip_classification_witness :
    parseHtmlResponse
        ⟨"x", "", [], "访问频率过高 请稍后", "", "", [], [], [], [], [], [], [], [], []⟩
      = Except.error (noIpClassify
        ⟨"x", "", [], "访问频率过高 请稍后", "", "", [], [], [], [], [], [], [], [], []⟩) ∧
    noIpClassify
        ⟨"x", "", [], "访问频率过高 请稍后", "", "", [], [], [], [], [], [], [], [], []⟩
      = ⟨"访问频率过高，请稍后再试", none⟩ := by
  have h := noip_classification
    ⟨"x", "", [], "访问频率过高 请稍后", "", "", [], [], [], [], [], [], [], [], []⟩
    (by decide) (by rfl) (by rfl) (by rfl) (by rfl)
  exact ⟨h.1, h.2.2.2.1 (by rfl)⟩

/-- The C5 counterexample document: no IP, no marker, a long body, and an
error-styled element with text `"boom"`. -/
def cexDoc : Doc :=
  ⟨"x", "", [], String.mk (List.replicate 1000 'a'), "", "boom",
   [], [], [], [], [], [], [], [], []⟩

set_option maxRecDepth 100000 in
/-- C5 counterexample: with a matched error-styled element, the raised
generic error carries that element text *alone* — its message does not
contain the body excerpt the claim promises. -/
theorem noip_excerpt_missing_cex :
    parseHtmlResponse cexDoc =
      Except.error ⟨"网站返回错误信息: \"boom\"", none⟩ ∧
    cexDoc.bodyText.length = 1000 ∧
    jsTrim cexDoc.errorText = "boom" ∧
    strContains "网站返回错误信息: \"boom\"" (pageExcerpt cexDoc.bodyText) = false := by
  refine ⟨?_, ?_, ?_, ?_⟩
  · rfl
  · rfl
  · rfl
  · decide

end Pong0
